import Mathlib

/-!
Shallow embedding of `blacklist_checker.py` (class `IPBlacklistChecker`).

The Python module exposes:
  * `is_blacklisted(ip)` — decorated with `functools.lru_cache(maxsize=10000)`;
    its body consults `self.cache` (a dict `ip ↦ (verdict, computed_at)` with a
    24-hour validity window) and otherwise iterates the `self.sources` dict
    (`abuseipdb`, `stopforumspam`, `blocklist_de` in insertion order) inside a
    try/except, returning at the first blocking adapter.
  * `clear_cache()` — clears `self.cache` and the lru memoization, logs the
    number of dict entries removed, and returns `None`.

Modelling choices:
  * Machine state `Checker` carries both cache layers: the lru store (a
    most-recent-first association list, bounded by `maxsize = 10000`) and the
    timestamped dict cache.
  * Time is an explicit `now : Nat` in seconds; the 24-hour window is 86400 s.
  * Each upstream HTTP interaction is an oracle record per provider
    (transport failure / status code / json-parse failure / payload fields);
    a Python exception escaping a call is `Except.error ()`.
  * Each call of `is_blacklisted` returns the verdict, the new state, and the
    list of adapter names the source loop actually invoked (its trace).
-/

namespace BlacklistChecker

/-- The triple `(is_blacklisted, source, confidence)` returned to callers. -/
structure Verdict where
  blocked : Bool
  source : Option String
  confidence : Int
  deriving DecidableEq, Repr

/-- An adapter's `(is_blocked, confidence)` pair. -/
abbrev AdapterResult := Bool × Int

deriving instance DecidableEq for Except

/-- Result of calling one `check_func(ip)` : either a pair, or a raised exception. -/
abbrev AdapterOutcome := Except Unit AdapterResult

/-- One adapter invocation: its outcome together with how many outbound
`requests.get` calls it performed. -/
structure AdapterRun where
  outcome : AdapterOutcome
  netCalls : Nat
  deriving DecidableEq, Repr

/-- Upstream oracle for the AbuseIPDB request of one call. -/
structure AbuseUpstream where
  transportFail : Bool
  status : Int
  jsonFail : Bool
  abuseConfidenceScore : Int
  deriving DecidableEq, Repr

/-- Upstream oracle for the StopForumSpam request of one call. -/
structure SfsUpstream where
  transportFail : Bool
  status : Int
  jsonFail : Bool
  appears : Int
  frequency : Int
  deriving DecidableEq, Repr

/-- Upstream oracle for the blocklist.de request of one call. -/
structure BldUpstream where
  transportFail : Bool
  status : Int
  text : String
  deriving DecidableEq, Repr

/-- Environment of one `is_blacklisted` call: configuration and the three
upstream oracles for the IP being checked. -/
structure Env where
  abuseipdb_api_key : Option String
  abuse : AbuseUpstream
  sfs : SfsUpstream
  bld : BldUpstream
  deriving DecidableEq, Repr

/-- Python truthiness test `not api_key` on `os.environ.get(...)`:
true when the variable is absent or the empty string. -/
def keyFalsy : Option String → Bool
  | none => true
  | some s => s = ""

/-- `_check_abuseipdb`: skip without a network call when the key is falsy;
otherwise one `requests.get`; on status 200 parse json and report
`(abuse_score > 75, abuse_score)`; on other statuses `(False, 0)`.
A transport or json failure raises. -/
def check_abuseipdb (e : Env) : AdapterRun :=
  if keyFalsy e.abuseipdb_api_key then ⟨.ok (false, 0), 0⟩
  else if e.abuse.transportFail then ⟨.error (), 1⟩
  else if e.abuse.status = 200 then
    if e.abuse.jsonFail then ⟨.error (), 1⟩
    else ⟨.ok (decide (e.abuse.abuseConfidenceScore > 75), e.abuse.abuseConfidenceScore), 1⟩
  else ⟨.ok (false, 0), 1⟩

/-- `_check_stopforumspam`: one `requests.get`; on status 200, if
`appears > 0` report `(True, min(100, frequency * 10))`, else `(False, 0)`;
on other statuses `(False, 0)`. A transport or json failure raises. -/
def check_stopforumspam (e : Env) : AdapterRun :=
  if e.sfs.transportFail then ⟨.error (), 1⟩
  else if e.sfs.status = 200 then
    if e.sfs.jsonFail then ⟨.error (), 1⟩
    else if e.sfs.appears > 0 then ⟨.ok (true, min 100 (e.sfs.frequency * 10)), 1⟩
    else ⟨.ok (false, 0), 1⟩
  else ⟨.ok (false, 0), 1⟩

/-- Substring test on character lists (Python's `in` on strings). -/
def hasSubList (pat : List Char) : List Char → Bool
  | [] => pat.isPrefixOf []
  | c :: cs => pat.isPrefixOf (c :: cs) || hasSubList pat cs

/-- `pat in s` for strings. -/
def strContains (s pat : String) : Bool := hasSubList pat.data s.data

/-- `text.lower()`, character by character (ASCII case folding). -/
def strLower (s : String) : String := ⟨s.data.map Char.toLower⟩

/-- The listing test of `_check_blocklist_de`:
`'attacks:' in text.lower() and 'attacks: 0' not in text.lower()`. -/
def bldListed (text : String) : Bool :=
  strContains (strLower text) "attacks:" && !(strContains (strLower text) "attacks: 0")

/-- `_check_blocklist_de`: one `requests.get`; on status 200 report
`(True, 80)` when the response text marks the IP as listed, else `(False, 0)`;
on other statuses `(False, 0)`. A transport failure raises. -/
def check_blocklist_de (e : Env) : AdapterRun :=
  if e.bld.transportFail then ⟨.error (), 1⟩
  else if e.bld.status = 200 then
    if bldListed e.bld.text then ⟨.ok (true, 80), 1⟩
    else ⟨.ok (false, 0), 1⟩
  else ⟨.ok (false, 0), 1⟩

/-- `self.sources` (a dict iterated in insertion order), with each
`check_func` already applied to the call's environment. -/
def sources (e : Env) : List (String × AdapterOutcome) :=
  [("abuseipdb", (check_abuseipdb e).outcome),
   ("stopforumspam", (check_stopforumspam e).outcome),
   ("blocklist_de", (check_blocklist_de e).outcome)]

/-- The `for source_name, check_func in self.sources.items()` loop of
`is_blacklisted`: a raising adapter is caught by the `except` and skipped;
the first adapter with `is_blocked` true wins. -/
def aggregateLoop : List (String × AdapterOutcome) → Option (String × Int)
  | [] => none
  | (_, .error _) :: rest => aggregateLoop rest
  | (name, .ok (b, conf)) :: rest =>
      if b then some (name, conf) else aggregateLoop rest

/-- Build the returned triple from the loop's result: `(True, source, confidence)`
at the first block, `(False, None, 0)` when no adapter blocks. -/
def verdictOf : Option (String × Int) → Verdict
  | some (name, conf) => ⟨true, some name, conf⟩
  | none => ⟨false, none, 0⟩

/-- Names of the adapters the loop invokes before returning (the loop stops
right after the first blocking adapter). -/
def consultedNames : List (String × AdapterOutcome) → List String
  | [] => []
  | (name, .error _) :: rest => name :: consultedNames rest
  | (name, .ok (b, _)) :: rest => name :: if b then [] else consultedNames rest

/-- `self.cache_duration = timedelta(hours=24)`, in seconds. -/
def CACHE_DURATION : Nat := 86400

/-- `lru_cache(maxsize=10000)`. -/
def LRU_MAXSIZE : Nat := 10000

/-- First-match association lookup (dict access / lru key search). -/
def assocFind {α : Type} (k : String) : List (String × α) → Option α
  | [] => none
  | (k', v) :: rest => if k = k' then some v else assocFind k rest

/-- Dict assignment `d[k] = v`: replace in place, or append when absent. -/
def assocSet {α : Type} (k : String) (v : α) : List (String × α) → List (String × α)
  | [] => [(k, v)]
  | (k', v') :: rest => if k' = k then (k, v) :: rest else (k', v') :: assocSet k v rest

/-- The checker's mutable state: the never-expiring lru memoization store
(most recent first) and the timestamped dict `self.cache`. -/
structure Checker where
  lru : List (String × Verdict)
  cache : List (String × Verdict × Nat)
  deriving DecidableEq, Repr

/-- Fresh instance: both stores empty. -/
def Checker.init : Checker := ⟨[], []⟩

/-- lru hit: the entry becomes most recently used; its value is unchanged. -/
def lruTouch (k : String) (v : Verdict) (l : List (String × Verdict)) :
    List (String × Verdict) :=
  (k, v) :: l.filter (fun p => !(p.1 == k))

/-- lru miss: insert at the front; when the store is full, the least recently
used entry (the last one) is evicted. -/
def lruInsert (k : String) (v : Verdict) (l : List (String × Verdict)) :
    List (String × Verdict) :=
  if l.length ≥ LRU_MAXSIZE then (k, v) :: l.dropLast else (k, v) :: l

/-- What one call of `is_blacklisted` yields: the returned verdict, the new
state, and the names of the adapters invoked during the call. -/
structure CallResult where
  verdict : Verdict
  state : Checker
  consulted : List String
  deriving DecidableEq, Repr

/-- The source loop plus the `self.cache[cache_key] = (result, datetime.now())`
write that both of its exits perform. -/
def runChecks (c : Checker) (ip : String) (e : Env) (now : Nat) :
    Verdict × Checker × List String :=
  let v := verdictOf (aggregateLoop (sources e))
  (v, { c with cache := assocSet ip (v, now) c.cache }, consultedNames (sources e))

/-- The body of `is_blacklisted` (what runs on an lru miss): return the dict
cache entry when it exists and is younger than 24 hours, otherwise run the
adapters and store the result with the current timestamp. -/
def isBlacklistedBody (c : Checker) (ip : String) (e : Env) (now : Nat) :
    Verdict × Checker × List String :=
  match assocFind ip c.cache with
  | some (v, t0) =>
      if now - t0 < CACHE_DURATION then (v, c, [])
      else runChecks c ip e now
  | none => runChecks c ip e now

/-- `is_blacklisted(ip)` as called: the `lru_cache` wrapper answers hits
without running the body; on a miss it runs the body and memoizes the
returned verdict. -/
def is_blacklisted (c : Checker) (ip : String) (e : Env) (now : Nat) : CallResult :=
  match assocFind ip c.lru with
  | some v => ⟨v, { c with lru := lruTouch ip v c.lru }, []⟩
  | none =>
      let r := isBlacklistedBody c ip e now
      ⟨r.1, { r.2.1 with lru := lruInsert ip r.1 r.2.1.lru }, r.2.2⟩

/-- What `clear_cache()` yields: its Python return value (`None`, since the
function has no return statement), the count `len(self.cache)` it logs, and
the state after `self.cache.clear()` and `self.is_blacklisted.cache_clear()`. -/
structure ClearResult where
  ret : Option Nat
  loggedCount : Nat
  state : Checker
  deriving DecidableEq, Repr

/-- `clear_cache()`. -/
def clear_cache (c : Checker) : ClearResult :=
  ⟨none, c.cache.length, ⟨[], []⟩⟩

/-! Concrete environments used by witnesses and counterexamples. -/

/-- All three upstreams answer 200 with clean (non-listing) payloads;
no AbuseIPDB key is configured. -/
def envClean : Env :=
  { abuseipdb_api_key := none
    abuse := ⟨false, 200, false, 0⟩
    sfs := ⟨false, 200, false, 0, 0⟩
    bld := ⟨false, 200, "ok"⟩ }

/-- No AbuseIPDB key; StopForumSpam answers 200 with `appears = 1`,
`frequency = 5` (so it blocks with confidence 50); blocklist.de is clean. -/
def envBlockSfs : Env :=
  { abuseipdb_api_key := none
    abuse := ⟨false, 200, false, 0⟩
    sfs := ⟨false, 200, false, 1, 5⟩
    bld := ⟨false, 200, "ok"⟩ }

/-- Every upstream request fails at the transport layer; the AbuseIPDB key is
configured, so all three `check_func`s raise. -/
def envRaiseAll : Env :=
  { abuseipdb_api_key := some "k"
    abuse := ⟨true, 200, false, 0⟩
    sfs := ⟨true, 200, false, 0, 0⟩
    bld := ⟨true, 200, "ok"⟩ }

/-- No AbuseIPDB key; StopForumSpam answers 200 with `appears = 1` but
`frequency = 0`, so it blocks with confidence `min(100, 0·10) = 0`. -/
def envSfsZeroFreq : Env :=
  { abuseipdb_api_key := none
    abuse := ⟨false, 200, false, 0⟩
    sfs := ⟨false, 200, false, 1, 0⟩
    bld := ⟨false, 200, "ok"⟩ }

/-- No AbuseIPDB key; StopForumSpam and blocklist.de both answer with
non-success statuses (404 and 500) without transport failures. -/
def envDown : Env :=
  { abuseipdb_api_key := none
    abuse := ⟨false, 200, false, 0⟩
    sfs := ⟨false, 404, false, 0, 0⟩
    bld := ⟨false, 500, "x"⟩ }

/-- AbuseIPDB key configured, score 85; StopForumSpam `appears = 1`,
`frequency = 3`; blocklist.de text `"attacks: 7"`. All statuses 200. -/
def envC8 : Env :=
  { abuseipdb_api_key := some "k"
    abuse := ⟨false, 200, false, 85⟩
    sfs := ⟨false, 200, false, 1, 3⟩
    bld := ⟨false, 200, "attacks: 7"⟩ }

/-- A state holding exactly one cached verdict (in both layers). -/
def cOneEntry : Checker :=
  ⟨[("1.2.3.4", ⟨false, none, 0⟩)], [("1.2.3.4", ⟨false, none, 0⟩, 0)]⟩

/-! Helper lemmas. -/

/-- After any call, the lru store answers the called IP with the verdict the
call just returned. -/
theorem assocFind_lru_after_call (c : Checker) (ip : String) (e : Env) (t : Nat) :
    assocFind ip (is_blacklisted c ip e t).state.lru
      = some (is_blacklisted c ip e t).verdict := by
  cases h : assocFind ip c.lru with
  | some v => simp [is_blacklisted, h, lruTouch, assocFind]
  | none =>
      simp only [is_blacklisted, h]
      unfold lruInsert
      split <;> simp [assocFind]

/-- A successful association lookup exhibits a member of the list. -/
theorem assocFind_mem {α : Type} {k : String} {v : α}
    {l : List (String × α)} (h : assocFind k l = some v) : (k, v) ∈ l := by
  induction l with
  | nil => simp [assocFind] at h
  | cons q rest ih =>
      obtain ⟨k', v'⟩ := q
      simp only [assocFind] at h
      by_cases hk : k = k'
      · subst hk
        rw [if_pos rfl] at h
        injection h with h
        subst h
        exact List.mem_cons_self _ _
      · rw [if_neg hk] at h
        exact List.mem_cons_of_mem _ (ih h)

/-- Members after a dict assignment: the new pair, or an old member. -/
theorem assocSet_mem {α : Type} {k : String} {v : α} {p : String × α}
    {l : List (String × α)} (h : p ∈ assocSet k v l) : p = (k, v) ∨ p ∈ l := by
  induction l with
  | cons q rest ih =>
      obtain ⟨k', v'⟩ := q
      simp only [assocSet] at h
      by_cases hk : k' = k
      · rw [if_pos hk] at h
        rcases List.mem_cons.mp h with h | h
        · exact Or.inl h
        · exact Or.inr (List.mem_cons_of_mem _ h)
      · rw [if_neg hk] at h
        rcases List.mem_cons.mp h with h | h
        · exact Or.inr (by simp [h])
        · rcases ih h with h | h
          · exact Or.inl h
          · exact Or.inr (List.mem_cons_of_mem _ h)
  | nil =>
      simp [assocSet] at h
      exact Or.inl h

/-- The well-formedness invariant of a verdict: the source is populated
exactly when blocked, and the confidence is 0 when not blocked. -/
def wfVerdict (v : Verdict) : Prop :=
  v.source.isSome = v.blocked ∧ (v.blocked = false → v.confidence = 0)

instance (v : Verdict) : Decidable (wfVerdict v) := by unfold wfVerdict; infer_instance

/-- Every verdict stored in either cache layer is well-formed. -/
def wfChecker (c : Checker) : Prop :=
  (∀ p ∈ c.lru, wfVerdict p.2) ∧ (∀ p ∈ c.cache, wfVerdict p.2.1)

/-- The verdict the source loop builds is always well-formed. -/
theorem wfVerdict_verdictOf (o : Option (String × Int)) : wfVerdict (verdictOf o) := by
  cases o with
  | none => simp [verdictOf, wfVerdict]
  | some p => obtain ⟨n, conf⟩ := p; simp [verdictOf, wfVerdict]

/-- `runChecks` returns a well-formed verdict and preserves state
well-formedness. -/
theorem runChecks_wf (c : Checker) (ip : String) (e : Env) (t : Nat)
    (h : wfChecker c) :
    wfVerdict (runChecks c ip e t).1 ∧ wfChecker (runChecks c ip e t).2.1 := by
  refine ⟨wfVerdict_verdictOf _, h.1, ?_⟩
  intro p hp
  rcases assocSet_mem hp with hp | hp
  · subst hp; exact wfVerdict_verdictOf _
  · exact h.2 p hp

/-- The body of `is_blacklisted` returns a well-formed verdict and preserves
state well-formedness. -/
theorem isBlacklistedBody_wf (c : Checker) (ip : String) (e : Env) (t : Nat)
    (h : wfChecker c) :
    wfVerdict (isBlacklistedBody c ip e t).1 ∧ wfChecker (isBlacklistedBody c ip e t).2.1 := by
  unfold isBlacklistedBody
  cases hf : assocFind ip c.cache with
  | none => exact runChecks_wf c ip e t h
  | some p =>
      obtain ⟨v, t0⟩ := p
      dsimp only
      by_cases ht : t - t0 < CACHE_DURATION
      · rw [if_pos ht]
        exact ⟨h.2 _ (assocFind_mem hf), h⟩
      · rw [if_neg ht]
        exact runChecks_wf c ip e t h

/-! Claim theorems. -/

/-- C1. The code at the failing input: IP "198.51.100.9" is checked at t = 0
(cached blocking verdict) and again at t = 90000 s, more than 24 hours later.
The second call consults no adapter and returns the memoized verdict, which
differs from what a fresh adapter run would return — the lru_cache wrapper
never expires, so the 24-hour window does not trigger recomputation as the
claim requires. -/
theorem C1_stale_cache_not_recomputed :
    (is_blacklisted (is_blacklisted Checker.init "198.51.100.9" envBlockSfs 0).state
        "198.51.100.9" envClean 90000).consulted = []
    ∧ (is_blacklisted (is_blacklisted Checker.init "198.51.100.9" envBlockSfs 0).state
        "198.51.100.9" envClean 90000).verdict
      = (is_blacklisted Checker.init "198.51.100.9" envBlockSfs 0).verdict
    ∧ (is_blacklisted Checker.init "198.51.100.9" envBlockSfs 0).verdict
      = ⟨true, some "stopforumspam", 50⟩
    ∧ verdictOf (aggregateLoop (sources envClean)) = ⟨false, none, 0⟩
    ∧ (⟨true, some "stopforumspam", 50⟩ : Verdict) ≠ ⟨false, none, 0⟩
    ∧ 90000 - 0 ≥ CACHE_DURATION :=
  ⟨rfl, rfl, rfl, rfl, by decide, by decide⟩

/-- C2 counterexample. On a state with one cached entry, `clear_cache` does
not return the removed count: its Python return value is `None`. -/
theorem C2_counterexample_returns_none :
    ¬ (clear_cache cOneEntry).ret = some cOneEntry.cache.length := by
  decide

/-- C2 amended. `clear_cache` empties both cache layers and returns `None`;
the exact count of removed dict entries is computed and logged, not returned;
a subsequent lookup for any IP re-runs the adapter loop. -/
theorem C2_clear_cache_amended (c : Checker) (ip : String) (e : Env) (t : Nat) :
    (clear_cache c).ret = none
    ∧ (clear_cache c).loggedCount = c.cache.length
    ∧ (clear_cache c).state = Checker.init
    ∧ (is_blacklisted (clear_cache c).state ip e t).consulted = consultedNames (sources e)
    ∧ (is_blacklisted (clear_cache c).state ip e t).verdict
      = verdictOf (aggregateLoop (sources e)) := by
  refine ⟨rfl, rfl, rfl, ?_, ?_⟩ <;>
    simp [clear_cache, is_blacklisted, assocFind, isBlacklistedBody, runChecks]

/-- C3 counterexample. With the API key configured and a transport failure,
`_check_abuseipdb` raises past its own boundary (and so does
`_check_stopforumspam`): the exception is not caught inside the adapter. -/
theorem C3_counterexample_adapter_raises :
    (check_abuseipdb envRaiseAll).outcome = .error ()
    ∧ (check_stopforumspam envRaiseAll).outcome = .error ()
    ∧ (check_blocklist_de envRaiseAll).outcome = .error () :=
  ⟨rfl, rfl, rfl⟩

/-- C3 amended. Adapters return the non-blocking zero-confidence pair for a
missing credential and for non-success statuses, but transport and
json-parse failures raise out of the adapter; the try/except around the
source loop in `is_blacklisted` catches the exception and skips the adapter,
so it never aborts the aggregation. -/
theorem C3_adapter_errors_amended (e : Env) (name : String)
    (rest : List (String × AdapterOutcome))
    (hk : keyFalsy e.abuseipdb_api_key = true)
    (hsf : e.sfs.transportFail = false) (hss : ¬ e.sfs.status = 200)
    (hbf : e.bld.transportFail = false) (hbs : ¬ e.bld.status = 200) :
    (check_abuseipdb e).outcome = .ok (false, 0)
    ∧ (check_stopforumspam e).outcome = .ok (false, 0)
    ∧ (check_blocklist_de e).outcome = .ok (false, 0)
    ∧ aggregateLoop ((name, Except.error ()) :: rest) = aggregateLoop rest := by
  refine ⟨?_, ?_, ?_, rfl⟩
  · simp [check_abuseipdb, hk]
  · simp [check_stopforumspam, hsf, hss]
  · simp [check_blocklist_de, hbf, hbs]

/-- C3 amended, witness at `envDown` and a one-element loop tail. -/
theorem C3_adapter_errors_amended_witness :
    (check_abuseipdb envDown).outcome = .ok (false, 0)
    ∧ (check_stopforumspam envDown).outcome = .ok (false, 0)
    ∧ (check_blocklist_de envDown).outcome = .ok (false, 0)
    ∧ aggregateLoop [("abuseipdb", Except.error ()), ("blocklist_de", Except.ok (true, 80))]
      = aggregateLoop [("blocklist_de", Except.ok (true, 80))] :=
  C3_adapter_errors_amended envDown "abuseipdb" [("blocklist_de", Except.ok (true, 80))]
    (by decide) rfl (by decide) rfl (by decide)

/-- C10. A blocking verdict with confidence 0 is reachable: with
StopForumSpam reporting `appears = 1` and `frequency = 0`, the adapter
returns `(True, 0)` and the public result is `(True, "stopforumspam", 0)`. -/
theorem C10_blocked_with_zero_confidence :
    (check_stopforumspam envSfsZeroFreq).outcome = .ok (true, 0)
    ∧ (is_blacklisted Checker.init "203.0.113.5" envSfsZeroFreq 0).verdict
      = ⟨true, some "stopforumspam", 0⟩ :=
  ⟨rfl, rfl⟩

/-- C4. First-match-wins in registration order: the sources run as
`abuseipdb`, `stopforumspam`, `blocklist_de`; the loop returns the verdict of
the first blocking adapter and consults nothing after it. In particular for
adapters A (non-blocking), B (blocking, confidence 60), C (blocking,
confidence 90) in order A, B, C, the result is `(True, B, 60)` and C is
never consulted. -/
theorem C4_first_match_wins (A B C : String × AdapterOutcome) (ca : Int)
    (e : Env) (ip : String) (t : Nat)
    (hA : A.2 = .ok (false, ca)) (hB : B.2 = .ok (true, 60)) (hC : C.2 = .ok (true, 90)) :
    verdictOf (aggregateLoop [A, B, C]) = ⟨true, some B.1, 60⟩
    ∧ consultedNames [A, B, C] = [A.1, B.1]
    ∧ (sources e).map Prod.fst = ["abuseipdb", "stopforumspam", "blocklist_de"]
    ∧ (is_blacklisted Checker.init ip e t).verdict = verdictOf (aggregateLoop (sources e))
    ∧ (is_blacklisted Checker.init ip e t).consulted = consultedNames (sources e) := by
  obtain ⟨nA, oA⟩ := A
  obtain ⟨nB, oB⟩ := B
  obtain ⟨nC, oC⟩ := C
  dsimp only at hA hB hC
  subst hA; subst hB; subst hC
  refine ⟨by simp [aggregateLoop, verdictOf], by simp [consultedNames], by simp [sources],
    ?_, ?_⟩ <;>
    simp [is_blacklisted, Checker.init, assocFind, isBlacklistedBody, runChecks]

/-- C4, witness: the three fixed adapters in their registration order, a
non-blocking A and blocking B and C. -/
theorem C4_first_match_wins_witness :
    verdictOf (aggregateLoop [("abuseipdb", Except.ok (false, (0 : Int))),
        ("stopforumspam", Except.ok (true, 60)), ("blocklist_de", Except.ok (true, 90))])
      = ⟨true, some "stopforumspam", 60⟩
    ∧ consultedNames [("abuseipdb", Except.ok (false, (0 : Int))),
        ("stopforumspam", Except.ok (true, 60)), ("blocklist_de", Except.ok (true, 90))]
      = ["abuseipdb", "stopforumspam"]
    ∧ (sources envClean).map Prod.fst = ["abuseipdb", "stopforumspam", "blocklist_de"]
    ∧ (is_blacklisted Checker.init "203.0.113.5" envClean 0).verdict
      = verdictOf (aggregateLoop (sources envClean))
    ∧ (is_blacklisted Checker.init "203.0.113.5" envClean 0).consulted
      = consultedNames (sources envClean) :=
  C4_first_match_wins ("abuseipdb", Except.ok (false, 0))
    ("stopforumspam", Except.ok (true, 60)) ("blocklist_de", Except.ok (true, 90))
    0 envClean "203.0.113.5" 0 rfl rfl rfl

/-- C5. Verdict well-formedness is an invariant: starting from a state whose
stored verdicts are well-formed, `is_blacklisted` returns a well-formed
verdict (source populated iff blocked; confidence 0 when not blocked) and
leaves a state whose stored verdicts are all well-formed. -/
theorem C5_verdict_invariant (c : Checker) (ip : String) (e : Env) (t : Nat)
    (h : wfChecker c) :
    wfVerdict (is_blacklisted c ip e t).verdict
    ∧ wfChecker (is_blacklisted c ip e t).state := by
  cases hf : assocFind ip c.lru with
  | some v =>
      have hv : wfVerdict v := h.1 _ (assocFind_mem hf)
      simp only [is_blacklisted, hf]
      refine ⟨hv, ?_, h.2⟩
      intro p hp
      rcases List.mem_cons.mp hp with hp | hp
      · subst hp; exact hv
      · exact h.1 p (List.mem_filter.mp hp).1
  | none =>
      have hbody := isBlacklistedBody_wf c ip e t h
      simp only [is_blacklisted, hf]
      refine ⟨hbody.1, ?_, hbody.2.2⟩
      intro p hp
      unfold lruInsert at hp
      have hmem : p = (ip, (isBlacklistedBody c ip e t).1)
          ∨ p ∈ (isBlacklistedBody c ip e t).2.1.lru := by
        by_cases hl : (isBlacklistedBody c ip e t).2.1.lru.length ≥ LRU_MAXSIZE
        · rw [if_pos hl] at hp
          rcases List.mem_cons.mp hp with hp | hp
          · exact Or.inl hp
          · exact Or.inr (List.mem_of_mem_dropLast hp)
        · rw [if_neg hl] at hp
          exact List.mem_cons.mp hp
      rcases hmem with hp' | hp'
      · subst hp'; exact hbody.1
      · exact hbody.2.1 p hp'

/-- C5, witness at the fresh instance (whose stores are trivially
well-formed) and a clean environment. -/
theorem C5_verdict_invariant_witness :
    wfVerdict (is_blacklisted Checker.init "203.0.113.5" envClean 0).verdict
    ∧ wfChecker (is_blacklisted Checker.init "203.0.113.5" envClean 0).state :=
  C5_verdict_invariant Checker.init "203.0.113.5" envClean 0
    ⟨fun p hp => absurd hp (List.not_mem_nil p), fun p hp => absurd hp (List.not_mem_nil p)⟩

/-- C6. Total adapter failure degrades gracefully: when the IP is in neither
cache layer and all three adapters raise, `is_blacklisted` still returns the
well-formed verdict `(False, None, 0)` — no exception reaches the caller. -/
theorem C6_total_failure_degrades (c : Checker) (ip : String) (e : Env) (t : Nat)
    (hlru : assocFind ip c.lru = none)
    (hcache : assocFind ip c.cache = none)
    (ha : (check_abuseipdb e).outcome = .error ())
    (hs : (check_stopforumspam e).outcome = .error ())
    (hb : (check_blocklist_de e).outcome = .error ()) :
    (is_blacklisted c ip e t).verdict = ⟨false, none, 0⟩ := by
  simp [is_blacklisted, hlru, isBlacklistedBody, hcache, runChecks, sources,
    ha, hs, hb, aggregateLoop, verdictOf]

/-- C6, witness: fresh instance, every upstream failing at the transport
layer. -/
theorem C6_total_failure_degrades_witness :
    (is_blacklisted Checker.init "203.0.113.5" envRaiseAll 0).verdict
      = ⟨false, none, 0⟩ :=
  C6_total_failure_degrades Checker.init "203.0.113.5" envRaiseAll 0
    rfl rfl rfl rfl rfl

/-- C7. Missing credential: when `ABUSEIPDB_API_KEY` is absent (or empty),
`_check_abuseipdb` returns `(False, 0)` with zero network calls, and the
aggregation outcome equals the outcome over the remaining two adapters. -/
theorem C7_missing_key_disables (e : Env)
    (h : keyFalsy e.abuseipdb_api_key = true) :
    check_abuseipdb e = ⟨.ok (false, 0), 0⟩
    ∧ aggregateLoop (sources e)
      = aggregateLoop [("stopforumspam", (check_stopforumspam e).outcome),
          ("blocklist_de", (check_blocklist_de e).outcome)] := by
  have h1 : check_abuseipdb e = ⟨.ok (false, 0), 0⟩ := by
    simp [check_abuseipdb, h]
  refine ⟨h1, ?_⟩
  simp [sources, h1, aggregateLoop]

/-- C7, witness: no key configured, StopForumSpam blocking. -/
theorem C7_missing_key_disables_witness :
    check_abuseipdb envBlockSfs = ⟨.ok (false, 0), 0⟩
    ∧ aggregateLoop (sources envBlockSfs)
      = aggregateLoop [("stopforumspam", (check_stopforumspam envBlockSfs).outcome),
          ("blocklist_de", (check_blocklist_de envBlockSfs).outcome)] :=
  C7_missing_key_disables envBlockSfs rfl

/-- C8. Per-adapter thresholds on a 200 response: AbuseIPDB blocks iff the
score is strictly above 75, with confidence equal to the score;
StopForumSpam blocks when `appears > 0` with confidence
`min(100, frequency·10)` and does not block otherwise; blocklist.de blocks
with fixed confidence 80 when the text marks the IP as listed. -/
theorem C8_adapter_thresholds (e : Env)
    (hk : keyFalsy e.abuseipdb_api_key = false)
    (haf : e.abuse.transportFail = false) (has : e.abuse.status = 200)
    (haj : e.abuse.jsonFail = false)
    (hsf : e.sfs.transportFail = false) (hss : e.sfs.status = 200)
    (hsj : e.sfs.jsonFail = false)
    (hbf : e.bld.transportFail = false) (hbs : e.bld.status = 200) :
    (check_abuseipdb e).outcome
      = .ok (decide (e.abuse.abuseConfidenceScore > 75), e.abuse.abuseConfidenceScore)
    ∧ (e.sfs.appears > 0 →
        (check_stopforumspam e).outcome = .ok (true, min 100 (e.sfs.frequency * 10)))
    ∧ (¬ e.sfs.appears > 0 → (check_stopforumspam e).outcome = .ok (false, 0))
    ∧ (bldListed e.bld.text = true → (check_blocklist_de e).outcome = .ok (true, 80))
    ∧ (bldListed e.bld.text = false → (check_blocklist_de e).outcome = .ok (false, 0)) := by
  refine ⟨by simp [check_abuseipdb, hk, haf, has, haj], ?_, ?_, ?_, ?_⟩
  · intro hap; simp [check_stopforumspam, hsf, hss, hsj, hap]
  · intro hap; simp [check_stopforumspam, hsf, hss, hsj, hap]
  · intro hbl; simp [check_blocklist_de, hbf, hbs, hbl]
  · intro hbl; simp [check_blocklist_de, hbf, hbs, hbl]

/-- C8, witness at `envC8` (key "k", score 85, appears 1, frequency 3, text
"attacks: 7"). -/
theorem C8_adapter_thresholds_witness :
    (check_abuseipdb envC8).outcome
      = .ok (decide (envC8.abuse.abuseConfidenceScore > 75), envC8.abuse.abuseConfidenceScore)
    ∧ (envC8.sfs.appears > 0 →
        (check_stopforumspam envC8).outcome = .ok (true, min 100 (envC8.sfs.frequency * 10)))
    ∧ (¬ envC8.sfs.appears > 0 → (check_stopforumspam envC8).outcome = .ok (false, 0))
    ∧ (bldListed envC8.bld.text = true → (check_blocklist_de envC8).outcome = .ok (true, 80))
    ∧ (bldListed envC8.bld.text = false → (check_blocklist_de envC8).outcome = .ok (false, 0)) :=
  C8_adapter_thresholds envC8 rfl rfl rfl rfl rfl rfl rfl rfl rfl

/-- C9. Idempotence within the validity window: after any call for an IP, a
second call for the same IP within 24 hours returns the same verdict and
invokes zero adapters. (The lru memoization answers the second call, so this
holds regardless of the elapsed-time hypothesis.) -/
theorem C9_idempotent_within_window (c : Checker) (ip : String) (e1 e2 : Env)
    (t1 t2 : Nat) (_h : t2 - t1 < CACHE_DURATION) :
    (is_blacklisted (is_blacklisted c ip e1 t1).state ip e2 t2).verdict
      = (is_blacklisted c ip e1 t1).verdict
    ∧ (is_blacklisted (is_blacklisted c ip e1 t1).state ip e2 t2).consulted = [] := by
  have hl := assocFind_lru_after_call c ip e1 t1
  generalize hr : is_blacklisted c ip e1 t1 = r1 at hl ⊢
  simp [is_blacklisted, hl]

/-- C9, witness: fresh instance, two calls 10 seconds apart. -/
theorem C9_idempotent_within_window_witness :
    (is_blacklisted (is_blacklisted Checker.init "1.2.3.4" envBlockSfs 0).state
        "1.2.3.4" envClean 10).verdict
      = (is_blacklisted Checker.init "1.2.3.4" envBlockSfs 0).verdict
    ∧ (is_blacklisted (is_blacklisted Checker.init "1.2.3.4" envBlockSfs 0).state
        "1.2.3.4" envClean 10).consulted = [] :=
  C9_idempotent_within_window Checker.init "1.2.3.4" envBlockSfs envClean 0 10 (by decide)

end BlacklistChecker
